import Mathlib

/-
  Verification of the collateralized-debt / market core of this repository.

  Pure functions from the sources are translated directly
  (graphene/chain/asset_object.hpp).  Components whose implementation files
  are not part of the source tree (evaluators, matching engine, median
  aggregation, vesting policy) are modelled from the specification, with
  behavior at the points exercised by src/tests/tests/operation_tests.cpp
  checked against those test assertions.
-/

namespace BitsharesCore

/-! ## Feed expiration (asset_object.hpp, asset_bitasset_data_object) -/

/-- Largest value of a 32-bit unsigned seconds counter; time_point_sec
maximum in the source. -/
def UINT32_MAX : Nat := 4294967295

/-- Fields of asset_bitasset_data_object that the feed-expiry functions
read: the publication time of the oldest contributing feed and
options.feed_lifetime_sec.  Both are 32-bit unsigned in the source; here a
Nat together with explicit bounds where needed. -/
structure BitassetFeedClock where
  currentFeedPublicationTime : Nat
  feedLifetimeSec : Nat

/-- Translation of asset_bitasset_data_object::feed_expiration_time: when
the remaining uint32 range above the publication time is no larger than the
feed lifetime the function returns time_point_sec maximum, otherwise the
sum of the two fields. -/
def feed_expiration_time (b : BitassetFeedClock) : Nat :=
  if UINT32_MAX - b.currentFeedPublicationTime ≤ b.feedLifetimeSec then
    UINT32_MAX
  else
    b.currentFeedPublicationTime + b.feedLifetimeSec

/-- Translation of feed_is_expired_before_hf_615: the old and buggy
implementation used before the No. 615 hardfork, returning
feed_expiration_time() >= current_time. -/
def feed_is_expired_before_hf_615 (b : BitassetFeedClock) (currentTime : Nat) : Bool :=
  feed_expiration_time b ≥ currentTime

/-- Translation of feed_is_expired: the corrected implementation, returning
feed_expiration_time() <= current_time. -/
def feed_is_expired (b : BitassetFeedClock) (currentTime : Nat) : Bool :=
  feed_expiration_time b ≤ currentTime

/-! ## Prices and feeds -/

/-- Exact ratio of two asset amounts (price), base over quote.  The asset
ids are fixed by context in every use below (base is the bitasset or debt
side, quote the core or collateral side); comparison is by 128-bit safe
cross multiplication exactly as in the source price type. -/
structure PriceR where
  baseAmount : Nat
  quoteAmount : Nat
deriving DecidableEq, Repr

/-- Price comparison by cross product: a/b is not above c/d iff a*d <= c*b. -/
def price_le (a b : PriceR) : Bool :=
  Nat.ble (a.baseAmount * b.quoteAmount) (b.baseAmount * a.quoteAmount)

/-- Record mirroring price_feed_with_icr: settlement price and core
exchange rate as prices, MCR, MSSR and ICR in per-mille units. -/
structure PriceFeedIcr where
  settlement_price : PriceR
  core_exchange_rate : PriceR
  maintenance_collateral_ratio : Nat
  maximum_short_squeeze_ratio : Nat
  initial_collateral_ratio : Nat
deriving DecidableEq, Repr

/-! ## Median feed aggregation -/

/-- Insertion of one element into a list sorted by the given Boolean order. -/
def insertSortedBy (le : α → α → Bool) (x : α) : List α → List α
  | [] => [x]
  | y :: ys => if le x y then x :: y :: ys else y :: insertSortedBy le x ys

/-- Insertion sort by the given Boolean order. -/
def sortListBy (le : α → α → Bool) : List α → List α
  | [] => []
  | x :: xs => insertSortedBy le x (sortListBy le xs)

/-- Middle element of the ascending sort at index count / 2, as the source
median takes it (confirmed against the witness_feeds test, which asserts
that two live feeds priced 30 and 25 produce a median settlement price of
30, the element at index 1 of the ascending sort). -/
def median_nat (l : List Nat) : Nat :=
  (sortListBy Nat.ble l).getD (l.length / 2) 0

/-- Same middle selection for price components. -/
def median_price (l : List PriceR) : PriceR :=
  (sortListBy price_le l).getD (l.length / 2) ⟨0, 0⟩

/-- Lower-middle variant written from the words of the specification
(sorted-middle, LOWER middle for an even count, index (count - 1) / 2); it
exists only to be compared with the behavior fixed by the tests. -/
def median_nat_lower (l : List Nat) : Nat :=
  (sortListBy Nat.ble l).getD ((l.length - 1) / 2) 0

/-- Lower-middle price median, written from the words of the claim. -/
def median_price_lower (l : List PriceR) : PriceR :=
  (sortListBy price_le l).getD ((l.length - 1) / 2) ⟨0, 0⟩

/-- One published feed entry: publication time and the feed itself
(asset_bitasset_data_object::feeds stores this pair per publisher). -/
structure PublishedFeed where
  publishTime : Nat
  feed : PriceFeedIcr
deriving DecidableEq

/-- Modelled from the spec: step 1 of the feed aggregation in §4.2 drops
publishers whose latest feed is older than feed_lifetime_sec (the
implementation file of update_median_feeds is not in the tree). -/
def live_feeds (entries : List PublishedFeed) (currentTime feedLifetimeSec : Nat) :
    List PriceFeedIcr :=
  (entries.filter (fun e => currentTime < e.publishTime + feedLifetimeSec)).map
    (fun e => e.feed)

/-- Modelled from the spec: update_median_feeds medians every numeric and
price component independently over the live feeds (§4.2 step 3, per-field
and not per-feed); the middle of an even count is the element at index
count / 2 of the ascending sort, as pinned by the witness_feeds test
assertions.  The implementation file is not in the tree. -/
def update_median_feeds (liveFeeds : List PriceFeedIcr) : PriceFeedIcr :=
  { settlement_price := median_price (liveFeeds.map (fun f => f.settlement_price)),
    core_exchange_rate := median_price (liveFeeds.map (fun f => f.core_exchange_rate)),
    maintenance_collateral_ratio :=
      median_nat (liveFeeds.map (fun f => f.maintenance_collateral_ratio)),
    maximum_short_squeeze_ratio :=
      median_nat (liveFeeds.map (fun f => f.maximum_short_squeeze_ratio)),
    initial_collateral_ratio :=
      median_nat (liveFeeds.map (fun f => f.initial_collateral_ratio)) }

/-- Per-field median computed with the lower-middle rule exactly as the
claim words it, for comparison with update_median_feeds. -/
def update_median_feeds_lower (liveFeeds : List PriceFeedIcr) : PriceFeedIcr :=
  { settlement_price := median_price_lower (liveFeeds.map (fun f => f.settlement_price)),
    core_exchange_rate := median_price_lower (liveFeeds.map (fun f => f.core_exchange_rate)),
    maintenance_collateral_ratio :=
      median_nat_lower (liveFeeds.map (fun f => f.maintenance_collateral_ratio)),
    maximum_short_squeeze_ratio :=
      median_nat_lower (liveFeeds.map (fun f => f.maximum_short_squeeze_ratio)),
    initial_collateral_ratio :=
      median_nat_lower (liveFeeds.map (fun f => f.initial_collateral_ratio)) }

/-! ## Call order engine -/

/-- One call order: amounts of backing collateral held and debt owed.
Amounts are signed 64-bit in the source; overflow is never approached in
any computation below, so Int is the exact model. -/
structure CallOrder where
  collateral : Int
  debt : Int
deriving DecidableEq, Repr

/-- Strict collateralization test from the source comment on
current_maintenance_collateralization (asset_object.hpp): call orders with
collateralization collateral/debt NOT GREATER than the maintenance
collateralization (the inverted settlement price scaled by MCR / 1000, as
collateral per debt) are in margin call territory.  The settlement price is
base = settlementBase units of debt per quote = settlementQuote units of
collateral, so the strict comparison cross-multiplies to
collateral * settlementBase * 1000 > debt * settlementQuote * MCR. -/
def aboveMaintenance (f : PriceFeedIcr) (collateral debt : Int) : Prop :=
  collateral * (f.settlement_price.baseAmount : Int) * 1000 >
    debt * (f.settlement_price.quoteAmount : Int) * (f.maintenance_collateral_ratio : Int)

instance (f : PriceFeedIcr) (c d : Int) : Decidable (aboveMaintenance f c d) := by
  unfold aboveMaintenance; infer_instance

/-- State touched by call_order_update for one account and one bitasset:
the live call order if any, the owner balances in the debt asset and the
collateral asset, the current feed if a valid one exists, and whether the
asset has been globally settled. -/
structure MarginState where
  callOrder : Option CallOrder
  debtBalance : Int
  collBalance : Int
  feed : Option PriceFeedIcr
  globallySettled : Bool
deriving DecidableEq

/-- Collateral of the call order resulting from a delta, before checks. -/
def resultingColl (s : MarginState) (deltaCollateral : Int) : Int :=
  (match s.callOrder with | some o => o.collateral | none => 0) + deltaCollateral

/-- Debt of the call order resulting from a delta, before checks. -/
def resultingDebt (s : MarginState) (deltaDebt : Int) : Int :=
  (match s.callOrder with | some o => o.debt | none => 0) + deltaDebt

/-- Collateralization gate against the current feed: with no valid feed
every check that needs one fails closed, with a feed the resulting position
must be strictly above the maintenance collateralization. -/
def feedAllows : Option PriceFeedIcr → Int → Int → Prop
  | none, _, _ => False
  | some f, c, d => aboveMaintenance f c d

instance (fo : Option PriceFeedIcr) (c d : Int) : Decidable (feedAllows fo c d) :=
  match fo with
  | none => isFalse (fun h => h)
  | some f => if h : aboveMaintenance f c d then isTrue h else isFalse h

/-- Modelled from the spec: the call_order_update evaluator (§4.3; its
implementation file is not in the tree).  Deltas may be signed; the
resulting collateral and debt and both owner balances must stay
non-negative; resulting zero debt demands zero resulting collateral with
the withdrawn remainder returned to the owner; a resulting positive debt
demands a valid feed and strictly more than maintenance collateralization
(checks that need a feed fail closed without one); nothing can be done on a
globally settled asset.  Matching against a book is not reached in any
state this model is used in. -/
def call_order_update (s : MarginState) (deltaDebt deltaCollateral : Int) :
    Option MarginState :=
  if s.globallySettled then none
  else if resultingColl s deltaCollateral < 0 then none
  else if resultingDebt s deltaDebt < 0 then none
  else if s.debtBalance + deltaDebt < 0 then none
  else if s.collBalance - deltaCollateral < 0 then none
  else if resultingDebt s deltaDebt = 0 then
    if resultingColl s deltaCollateral = 0 then
      some { s with callOrder := none, debtBalance := s.debtBalance + deltaDebt,
                    collBalance := s.collBalance - deltaCollateral }
    else none
  else if feedAllows s.feed (resultingColl s deltaCollateral) (resultingDebt s deltaDebt) then
    some { s with
           callOrder := some ⟨resultingColl s deltaCollateral, resultingDebt s deltaDebt⟩,
           debtBalance := s.debtBalance + deltaDebt,
           collBalance := s.collBalance - deltaCollateral }
  else none

/-- Sequential application of call_order_update operations; any failure
aborts the whole sequence, as a failing operation aborts its transaction. -/
def apply_call_ops (s : MarginState) : List (Int × Int) → Option MarginState
  | [] => some s
  | (dd, dc) :: rest =>
    match call_order_update s dd dc with
    | none => none
    | some s2 => apply_call_ops s2 rest

/-- Invariant I3: every live call order is strictly above the maintenance
collateralization whenever a valid feed exists, and a globally settled
asset has no call orders. -/
def callInvariant (s : MarginState) : Prop :=
  (∀ o, s.callOrder = some o → ∀ f, s.feed = some f →
    aboveMaintenance f o.collateral o.debt) ∧
  (s.globallySettled = true → s.callOrder = none)

/-! ## Margin call matching -/

/-- Limit order: an amount of the debt asset for sale and the minimum
amount of the collateral asset to receive, which defines its price. -/
structure LimitOrder where
  forSale : Nat
  minReceive : Nat
deriving DecidableEq, Repr

/-- Modelled from the spec: guard of §4.4 rule 3, the max-short-squeeze
side.  A margin call pays at most MSSR / 1000 times the feed ratio of
collateral per debt, so a limit order selling sellAmount of debt for at
least minReceive of collateral can be taken by a margin call only when
minReceive * settlementBase * 1000 <= sellAmount * settlementQuote * MSSR. -/
def within_short_squeeze_limit (f : PriceFeedIcr) (sellAmount minReceive : Nat) : Prop :=
  minReceive * f.settlement_price.baseAmount * 1000 ≤
    sellAmount * f.settlement_price.quoteAmount * f.maximum_short_squeeze_ratio

instance (f : PriceFeedIcr) (a r : Nat) : Decidable (within_short_squeeze_limit f a r) := by
  unfold within_short_squeeze_limit; infer_instance

/-- Modelled from the spec: a margin call fill against a limit order is
executed only when the call order is in margin call territory (not strictly
above the maintenance collateralization) and the fill respects the
max-short-squeeze guard (§4.4 rules 2 and 3); otherwise the trade is not
forced and the limit order stays on the book. -/
def margin_call_executes (f : PriceFeedIcr) (c : CallOrder) (sellAmount minReceive : Nat) :
    Prop :=
  ¬ aboveMaintenance f c.collateral c.debt ∧ within_short_squeeze_limit f sellAmount minReceive

instance (f : PriceFeedIcr) (c : CallOrder) (a r : Nat) :
    Decidable (margin_call_executes f c a r) := by
  unfold margin_call_executes; infer_instance

/-- Modelled from the spec: the matching walk of a fresh limit sell of the
debt asset against the call orders, least collateralized first (§4.4).
When a call is eligible the fill amount is the smaller side in debt units,
paid at the limit price with the floor rounding of §4.4 rule 4; a call
whose debt reaches zero leaves the walk.  Returns the surviving calls, the
remainder of the limit order and the collateral paid out to the seller. -/
def margin_call_walk (f : PriceFeedIcr) :
    List CallOrder → LimitOrder → List CallOrder × LimitOrder × Nat
  | [], o => ([], o, 0)
  | c :: cs, o =>
    if 0 < o.forSale ∧ margin_call_executes f c o.forSale o.minReceive then
      let fillDebt := min o.forSale c.debt.toNat
      let payout := fillDebt * o.minReceive / o.forSale
      let o2 : LimitOrder := ⟨o.forSale - fillDebt, o.minReceive - payout⟩
      let c2 : CallOrder := ⟨c.collateral - payout, c.debt - fillDebt⟩
      let rest := margin_call_walk f cs o2
      (if c2.debt = 0 then rest.1 else c2 :: rest.1, rest.2.1, payout + rest.2.2)
    else
      let rest := margin_call_walk f cs o
      (c :: rest.1, rest.2.1, rest.2.2)

/-- Market state for the margin call scenario: the call orders (least
collateralized first), the resting limit orders selling the debt asset,
and the balances of the account placing the sell order. -/
structure MarketState where
  calls : List CallOrder
  book : List LimitOrder
  sellerDebtBal : Int
  sellerCollBal : Int
deriving DecidableEq

/-- Modelled from the spec: limit_order_create for a sell of the debt
asset, §4.4.  The sold amount is escrowed from the seller balance, the
margin call walk is attempted, and any remainder rests on the book. -/
def submit_limit_sell (f : PriceFeedIcr) (s : MarketState) (sellAmount minReceive : Nat) :
    Option MarketState :=
  if (sellAmount : Int) > s.sellerDebtBal then none
  else
    let r := margin_call_walk f s.calls ⟨sellAmount, minReceive⟩
    some { calls := r.1,
           book := if r.2.1.forSale = 0 then s.book else s.book ++ [r.2.1],
           sellerDebtBal := s.sellerDebtBal - sellAmount,
           sellerCollBal := s.sellerCollBal + (r.2.2 : Int) }

/-! ## Prediction markets -/

/-- State of one prediction market asset together with the single borrower
and holder account of the scenario: the open position, the holder balances
in the prediction market asset and the core (collateral) asset, the
current supply of the asset, and the global settlement state of
asset_bitasset_data_object (settlement price and settlement fund; the
price is null before settlement, modelled by the settled flag). -/
structure PmState where
  position : Option CallOrder
  pmBalance : Int
  coreBalance : Int
  currentSupply : Int
  settled : Bool
  settlePriceBase : Nat
  settlePriceQuote : Nat
  settlementFund : Int
deriving DecidableEq

/-- Collateral amount of an optional position, zero when absent. -/
def posCollateral : Option CallOrder → Int
  | some o => o.collateral
  | none => 0

/-- Debt amount of an optional position, zero when absent. -/
def posDebt : Option CallOrder → Int
  | some o => o.debt
  | none => 0

/-- Modelled from the spec: call_order_update on a prediction market
(§4.3; evaluator file not in the tree).  Per the prediction_market comment
in asset_object.hpp total debt and total collateral are always equal
amounts, so a delta whose collateral amount differs from its debt amount is
rejected; there is no margin call and no feed check; the resulting amounts
and balances must stay non-negative, and zero resulting debt closes the
position (resulting collateral is then zero as well since the deltas are
equal and the position was one-to-one). -/
def pm_call_order_update (s : PmState) (deltaDebt deltaCollateral : Int) : Option PmState :=
  if s.settled then none
  else if deltaDebt ≠ deltaCollateral then none
  else if posCollateral s.position + deltaCollateral < 0 then none
  else if posDebt s.position + deltaDebt < 0 then none
  else if s.pmBalance + deltaDebt < 0 then none
  else if s.coreBalance - deltaCollateral < 0 then none
  else if posDebt s.position + deltaDebt = 0 then
    if posCollateral s.position + deltaCollateral = 0 then
      some { s with position := none, pmBalance := s.pmBalance + deltaDebt,
                    coreBalance := s.coreBalance - deltaCollateral,
                    currentSupply := s.currentSupply + deltaDebt }
    else none
  else
    some { s with
           position := some ⟨posCollateral s.position + deltaCollateral,
                             posDebt s.position + deltaDebt⟩,
           pmBalance := s.pmBalance + deltaDebt,
           coreBalance := s.coreBalance - deltaCollateral,
           currentSupply := s.currentSupply + deltaDebt }

/-- Modelled from the spec: asset_global_settle on a prediction market
(§4.5; evaluator file not in the tree).  An already settled asset cannot be
settled again; per the prediction_market comment in asset_object.hpp the
maximum price for global settlement is 1-to-1, so a price paying more than
one collateral per debt is rejected.  The open position is seized: the
collateral owed at the settlement price funds the settlement fund and the
excess collateral returns to the position owner. -/
def pm_global_settle (s : PmState) (priceBase priceQuote : Nat) : Option PmState :=
  if s.settled then none
  else if priceBase = 0 then none
  else if priceBase < priceQuote then none
  else
    some { s with position := none, settled := true,
                  settlePriceBase := priceBase, settlePriceQuote := priceQuote,
                  settlementFund := posDebt s.position * priceQuote / priceBase,
                  coreBalance := s.coreBalance +
                    (posCollateral s.position - posDebt s.position * priceQuote / priceBase) }

/-- Modelled from the spec: asset_settle (force settlement) on a
prediction market (§4.5; evaluator file not in the tree).  Per the
prediction_market comment in asset_object.hpp no force settlement may be
performed before the issuer settles globally; afterwards settlement is
immediate at the settlement price, redeeming from the settlement fund. -/
def pm_force_settle (s : PmState) (amount : Nat) : Option PmState :=
  if s.settled = false then none
  else if (amount : Int) > s.pmBalance then none
  else
    some { s with pmBalance := s.pmBalance - amount,
                  coreBalance :=
                    s.coreBalance + (amount * s.settlePriceQuote / s.settlePriceBase : Nat),
                  currentSupply := s.currentSupply - amount,
                  settlementFund :=
                    s.settlementFund - (amount * s.settlePriceQuote / s.settlePriceBase : Nat) }

/-! ## Limit order book and fill-or-kill -/

/-- Cross test of a fresh taker order selling asset X for asset Y against
a maker order of the opposite side: the maker offers forSale of Y and
demands minReceive of X, and they cross when the maker rate in Y per X is
at least the taker demanded rate. -/
def crosses (taker maker : LimitOrder) : Prop :=
  taker.minReceive * maker.minReceive ≤ maker.forSale * taker.forSale

instance (t m : LimitOrder) : Decidable (crosses t m) := by
  unfold crosses; infer_instance

/-- Modelled from the spec: the matching walk of a fresh limit order down
the opposing book, best maker first (§4.4 rules 1 and 4).  The smaller side
in X units fixes the trade, the Y side fills at the maker price with floor
rounding, and the walk stops at the first maker that does not cross.
Returns the taker remainder, the surviving opposing book and the amount of
Y received. -/
def match_walk : LimitOrder → List LimitOrder → LimitOrder × List LimitOrder × Nat
  | o, [] => (o, [], 0)
  | o, m :: ms =>
    if 0 < o.forSale ∧ crosses o m then
      let fillX := min o.forSale m.minReceive
      let fillY := fillX * m.forSale / m.minReceive
      let o2 : LimitOrder := ⟨o.forSale - fillX, o.minReceive - min o.minReceive fillY⟩
      let m2 : LimitOrder := ⟨m.forSale - fillY, m.minReceive - fillX⟩
      let rest := match_walk o2 ms
      (rest.1, (if m2.minReceive = 0 then rest.2.1 else m2 :: rest.2.1), fillY + rest.2.2)
    else
      (o, m :: ms, 0)

/-- Ledger state for limit_order_create: the opposing book, the resting
orders of our own side, and the seller balances in the sold asset and the
received asset. -/
structure BookState where
  opposingBook : List LimitOrder
  ownBook : List LimitOrder
  sellBalance : Int
  receiveBalance : Int
deriving DecidableEq

/-- Modelled from the spec: limit_order_create (§4.4 and §6; evaluator file
not in the tree).  Amounts must be strictly positive and covered by the
seller balance.  The order is matched by the walk; with fill_or_kill set a
remainder after the walk fails the whole operation and the mutation is
rolled back (none is returned and the prior state stands untouched),
otherwise the remainder rests on the book and the sold amount is
escrowed. -/
def limit_order_create (s : BookState) (forSale minReceive : Nat) (fillOrKill : Bool) :
    Option BookState :=
  if forSale = 0 then none
  else if minReceive = 0 then none
  else if (forSale : Int) > s.sellBalance then none
  else if fillOrKill = true ∧ (match_walk ⟨forSale, minReceive⟩ s.opposingBook).1.forSale ≠ 0
  then none
  else
    some { opposingBook := (match_walk ⟨forSale, minReceive⟩ s.opposingBook).2.1,
           ownBook :=
             if (match_walk ⟨forSale, minReceive⟩ s.opposingBook).1.forSale = 0 then s.ownBook
             else s.ownBook ++ [(match_walk ⟨forSale, minReceive⟩ s.opposingBook).1],
           sellBalance := s.sellBalance - forSale,
           receiveBalance :=
             s.receiveBalance + ((match_walk ⟨forSale, minReceive⟩ s.opposingBook).2.2 : Int) }

/-! ## Vesting balances, coin-days-destroyed policy -/

/-- One vesting balance under the CDD policy: the balance, the policy
parameters vesting_seconds and coin_seconds_earned, and the time of the
last coin-seconds update.  All quantities are in the smallest asset unit
and in seconds. -/
structure CddVestingBalance where
  balance : Nat
  vestingSeconds : Nat
  coinSecondsEarned : Nat
  coinSecondsEarnedLastUpdate : Nat
deriving DecidableEq, Repr

/-- Modelled from the spec: CDD aging at time t (§4.7; the policy
implementation file is not in the tree).  Elapsed time is capped at
vesting_seconds, the earned coin-seconds grow by elapsed * balance and are
capped at balance * vesting_seconds. -/
def vesting_update (v : CddVestingBalance) (t : Nat) : CddVestingBalance :=
  let dt := min (t - v.coinSecondsEarnedLastUpdate) v.vestingSeconds
  { v with
    coinSecondsEarned :=
      min (v.coinSecondsEarned + dt * v.balance) (v.balance * v.vestingSeconds),
    coinSecondsEarnedLastUpdate := t }

/-- Modelled from the spec: vesting_balance_withdraw under the CDD policy
at time t (§4.7).  After aging, a withdrawal of w needs w within the
balance and w * vesting_seconds within the earned coin-seconds; on success
both are reduced accordingly. -/
def vesting_withdraw (v : CddVestingBalance) (t w : Nat) : Option CddVestingBalance :=
  if w ≤ (vesting_update v t).balance ∧
      w * (vesting_update v t).vestingSeconds ≤ (vesting_update v t).coinSecondsEarned then
    some { vesting_update v t with
           balance := (vesting_update v t).balance - w,
           coinSecondsEarned :=
             (vesting_update v t).coinSecondsEarned -
               w * (vesting_update v t).vestingSeconds }
  else none

/-! ## Concrete scenario data from operation_tests.cpp -/

/-- Feed of the borrow and cover and margin call scenarios: settlement
price USDBIT 100 per CORE 100, MCR 1750, MSSR 1500 (the values the tests
publish explicitly). -/
def usdbitFeed : PriceFeedIcr := ⟨⟨100, 100⟩, ⟨100, 100⟩, 1750, 1500, 1750⟩

/-- Unit settlement price feed used at the exact maintenance boundary. -/
def unitFeed : PriceFeedIcr := ⟨⟨1, 1⟩, ⟨1, 1⟩, 1750, 1500, 1750⟩

/-- Fresh margin state of the borrow and cover scenario: no position, no
USDBIT, a CORE balance of 10,000,000 and a valid published feed. -/
def borrowScenarioStart : MarginState := ⟨none, 0, 10000000, some usdbitFeed, false⟩

/-- Feed published by the first witness in the witness_feeds test:
settlement price USDBIT 30 per CORE 100000, default MCR 1750. -/
def witnessFeed30 : PriceFeedIcr := ⟨⟨30, 100000⟩, ⟨30, 100000⟩, 1750, 1500, 1750⟩

/-- Feed published by the second witness: USDBIT 25 per CORE 100000,
default MCR 1750. -/
def witnessFeed25 : PriceFeedIcr := ⟨⟨25, 100000⟩, ⟨25, 100000⟩, 1750, 1500, 1750⟩

/-- Feed published by the third witness: USDBIT 40 per CORE 100000 with
the outlier MCR 1001. -/
def witnessFeed40 : PriceFeedIcr := ⟨⟨40, 100000⟩, ⟨40, 100000⟩, 1001, 1500, 1001⟩

/-- Fresh state of the prediction market scenario: no position, no PMARK,
a core balance of 1,000,000, supply zero, not settled. -/
def pmScenarioStart : PmState := ⟨none, 0, 1000000, 0, false, 1, 1, 0⟩

/-! # Theorems -/

/-! ## C6: flipped feed-expiry comparison before hardfork 615 -/

/-- Claim C6: for every bitasset and current time t the pre-615 predicate
reports the current feed expired iff feed_expiration_time() >= t while the
corrected post-615 predicate reports it expired iff
feed_expiration_time() <= t; in particular a feed whose expiration lies
strictly in the future is reported as expired by the pre-615 rule. -/
theorem C6_feed_expiry_flipped_before_615 :
    ∀ (b : BitassetFeedClock) (t : Nat),
      (feed_is_expired_before_hf_615 b t = true ↔ feed_expiration_time b ≥ t) ∧
      (feed_is_expired b t = true ↔ feed_expiration_time b ≤ t) ∧
      (t < feed_expiration_time b → feed_is_expired_before_hf_615 b t = true) := by
  intro b t
  refine ⟨?_, ?_, ?_⟩
  · simp only [feed_is_expired_before_hf_615, decide_eq_true_eq]
  · simp only [feed_is_expired, decide_eq_true_eq]
  · intro h
    simp only [feed_is_expired_before_hf_615, decide_eq_true_eq]
    omega

/-- Witness for C6 at a concrete bitasset clock: publication time 100 with
lifetime 50 expires at 150, which at current time 120 lies in the future
and is nevertheless reported expired by the pre-615 predicate. -/
theorem C6_feed_expiry_flipped_before_615_witness :
    feed_is_expired_before_hf_615 ⟨100, 50⟩ 120 = true ∧
    feed_is_expired ⟨100, 50⟩ 120 = false :=
  ⟨(C6_feed_expiry_flipped_before_615 ⟨100, 50⟩ 120).2.2 (by decide), by decide⟩

/-! ## C10: feed_expiration_time saturates instead of wrapping -/

/-- Claim C10: feed_expiration_time never wraps the 32-bit seconds
counter: when the remaining uint32 range above the publication time is no
larger than the feed lifetime it returns the maximal time so the feed never
expires at any representable earlier time, and otherwise it returns the
publication time plus the lifetime; the result never exceeds the 32-bit
range. -/
theorem C10_feed_expiration_no_wrap :
    ∀ (b : BitassetFeedClock), b.currentFeedPublicationTime ≤ UINT32_MAX →
      feed_expiration_time b ≤ UINT32_MAX ∧
      (UINT32_MAX - b.currentFeedPublicationTime ≤ b.feedLifetimeSec →
        feed_expiration_time b = UINT32_MAX) ∧
      (b.feedLifetimeSec < UINT32_MAX - b.currentFeedPublicationTime →
        feed_expiration_time b = b.currentFeedPublicationTime + b.feedLifetimeSec) ∧
      (∀ t, t < UINT32_MAX → UINT32_MAX - b.currentFeedPublicationTime ≤ b.feedLifetimeSec →
        feed_is_expired b t = false) := by
  intro b hb
  refine ⟨?_, ?_, ?_, ?_⟩
  · unfold feed_expiration_time
    split
    · omega
    · omega
  · intro h
    unfold feed_expiration_time
    rw [if_pos h]
  · intro h
    unfold feed_expiration_time
    rw [if_neg (by omega)]
  · intro t ht h
    simp only [feed_is_expired, feed_expiration_time, if_pos h, decide_eq_false_iff_not]
    omega

/-- Witness for C10 at a concrete clock near the end of the 32-bit range:
publication time UINT32_MAX - 10 with lifetime 3600 saturates to the
maximal time and is not expired at time 1000000. -/
theorem C10_feed_expiration_no_wrap_witness :
    feed_expiration_time ⟨4294967285, 3600⟩ = UINT32_MAX ∧
    feed_is_expired ⟨4294967285, 3600⟩ 1000000 = false :=
  ⟨(C10_feed_expiration_no_wrap ⟨4294967285, 3600⟩ (by decide)).2.1 (by decide),
   (C10_feed_expiration_no_wrap ⟨4294967285, 3600⟩ (by decide)).2.2.2 1000000
     (by decide) (by decide)⟩

/-! ## C1: covering to zero debt demands zero collateral -/

/-- Claim C1: in the borrow and cover scenario with a valid feed,
borrowing USDBIT 5000 against CORE 10000 leaves balances USDBIT 5000 and
CORE 9,990,000; covering USDBIT 2500 against CORE 5000 leaves USDBIT 2500
and CORE 9,995,000; covering the remaining USDBIT 2500 while withdrawing
CORE 0 is rejected because the resulting debt would be zero with positive
collateral; covering USDBIT 2500 while withdrawing CORE 5000 clears the
position and restores the original balances.  In general any
call_order_update whose resulting debt is zero with positive resulting
collateral is rejected. -/
theorem C1_borrow_cover_roundtrip :
    (call_order_update borrowScenarioStart 5000 10000 =
      some ⟨some ⟨10000, 5000⟩, 5000, 9990000, some usdbitFeed, false⟩) ∧
    (call_order_update ⟨some ⟨10000, 5000⟩, 5000, 9990000, some usdbitFeed, false⟩
        (-2500) (-5000) =
      some ⟨some ⟨5000, 2500⟩, 2500, 9995000, some usdbitFeed, false⟩) ∧
    (call_order_update ⟨some ⟨5000, 2500⟩, 2500, 9995000, some usdbitFeed, false⟩
        (-2500) 0 = none) ∧
    (call_order_update ⟨some ⟨5000, 2500⟩, 2500, 9995000, some usdbitFeed, false⟩
        (-2500) (-5000) =
      some ⟨none, 0, 10000000, some usdbitFeed, false⟩) ∧
    (∀ (s : MarginState) (dd dc : Int), resultingDebt s dd = 0 → 0 < resultingColl s dc →
      call_order_update s dd dc = none) := by
  refine ⟨by decide, by decide, by decide, by decide, ?_⟩
  intro s dd dc hd hc
  unfold call_order_update
  by_cases h0 : s.globallySettled = true
  · rw [if_pos h0]
  · rw [if_neg h0, if_neg (by omega : ¬ resultingColl s dc < 0),
        if_neg (by omega : ¬ resultingDebt s dd < 0)]
    by_cases h3 : s.debtBalance + dd < 0
    · rw [if_pos h3]
    · rw [if_neg h3]
      by_cases h4 : s.collBalance - dc < 0
      · rw [if_pos h4]
      · rw [if_neg h4, if_pos hd, if_neg (by omega : ¬ resultingColl s dc = 0)]

/-- Witness for C1 at the concrete rejected cover: from a position of
CORE 5000 collateral and USDBIT 2500 debt, covering the full debt while
withdrawing no collateral is rejected. -/
theorem C1_borrow_cover_roundtrip_witness :
    call_order_update ⟨some ⟨5000, 2500⟩, 2500, 9995000, some usdbitFeed, false⟩
      (-2500) 0 = none :=
  C1_borrow_cover_roundtrip.2.2.2.2
    ⟨some ⟨5000, 2500⟩, 2500, 9995000, some usdbitFeed, false⟩ (-2500) 0
    (by decide) (by decide)

/-! ## C2: margin call protection scenario -/

/-- Counterexample to claim C2: the claim asserts that post-hardfork a
limit sell of USDBIT 1000 at 1000:1800 fills by margin-calling the less
collateralized position, but in the scenario of margin_call_limit_test no
position is in margin call territory (the least collateralized one holds
CORE 4000 against USDBIT 2000 debt, collateralization 2.0 against
maintenance 1.75), so the sell at 1000:1800 is not executed: the order
rests on the book with full amount, both call orders survive unchanged and
no collateral is paid out — matching the test, which checks that
create_sell_order returns a non-null (unfilled) order.  The 1000:1800
price additionally violates the max-short-squeeze guard. -/
theorem C2_margin_call_counterexample :
    (submit_limit_sell usdbitFeed
        ⟨[⟨4000, 2000⟩, ⟨8000, 2000⟩], [⟨1000, 1400⟩], 1000, 992000⟩ 1000 1800 =
      some ⟨[⟨4000, 2000⟩, ⟨8000, 2000⟩], [⟨1000, 1400⟩, ⟨1000, 1800⟩], 0, 992000⟩) ∧
    aboveMaintenance usdbitFeed 4000 2000 ∧
    ¬ within_short_squeeze_limit usdbitFeed 1000 1800 := by
  refine ⟨by decide, by decide, by decide⟩

/-- Claim C2 as amended: post-hardfork, under MSSR 1500, MCR 1750 and
settlement price USDBIT 100 per CORE 100, with borrower positions of
USDBIT 1000 debt against CORE 2000 and CORE 4000, neither call order is in
margin call territory (collateralization 2.0 and 4.0, strictly above the
maintenance 1.75), so a limit sell of USDBIT 1000 at 1000:1400 is not
executed against the call orders: the order rests on the book and every
party's balances are unchanged apart from the escrowed sale amount; a
limit sell of USDBIT 1000 at 1000:1800 likewise rests unfilled, its price
violating the max-short-squeeze guard as well, so it could not fill by a
margin call even against a position in margin call territory. -/
theorem C2_margin_call_protection :
    (submit_limit_sell usdbitFeed
        ⟨[⟨2000, 1000⟩, ⟨4000, 1000⟩], [], 1000, 996000⟩ 1000 1400 =
      some ⟨[⟨2000, 1000⟩, ⟨4000, 1000⟩], [⟨1000, 1400⟩], 0, 996000⟩) ∧
    aboveMaintenance usdbitFeed 2000 1000 ∧
    aboveMaintenance usdbitFeed 4000 1000 ∧
    ¬ margin_call_executes usdbitFeed ⟨2000, 1000⟩ 1000 1400 ∧
    ¬ margin_call_executes usdbitFeed ⟨2000, 1000⟩ 1000 1800 ∧
    within_short_squeeze_limit usdbitFeed 1000 1400 ∧
    ¬ within_short_squeeze_limit usdbitFeed 1000 1800 := by
  refine ⟨by decide, by decide, by decide, by decide, by decide, by decide, by decide⟩

/-! ## C4: per-field median of live feeds -/

/-- Counterexample to claim C4: the claim takes the LOWER middle of an
even count of live feeds, but the engine takes the element at index
count / 2 of the ascending sort: with the two live feeds of the
witness_feeds test priced USDBIT 30 and USDBIT 25 per CORE 100000 the test
asserts a median settlement price of 30 per 100000, which is the upper
middle; the lower-middle rule of the claim would give 25 per 100000. -/
theorem C4_median_counterexample :
    (update_median_feeds [witnessFeed30, witnessFeed25]).settlement_price = ⟨30, 100000⟩ ∧
    (update_median_feeds_lower [witnessFeed30, witnessFeed25]).settlement_price =
      ⟨25, 100000⟩ ∧
    ((⟨30, 100000⟩ : PriceR) ≠ ⟨25, 100000⟩) := by
  refine ⟨by decide, by decide, by decide⟩

/-- Claim C4 as amended: each of settlement price, core exchange rate,
MCR, MSSR and ICR is independently the sorted middle of the live feeds'
values for that field, at index count / 2 of the ascending sort (the upper
middle for an even count).  With the three live witness feeds priced 30,
25 and 40 the median feed has the settlement price 30 per 100000 and its
MCR is the median 1750 of the three published MCRs {1750, 1750, 1001};
the MCR median is independent of which publisher supplied the median
price: attaching the outlier MCR 1001 to the median-price publisher still
yields the per-field median MCR 1750.  The live filter drops no feed that
is younger than the lifetime. -/
theorem C4_median_per_field :
    (update_median_feeds [witnessFeed30, witnessFeed25, witnessFeed40]).settlement_price =
      ⟨30, 100000⟩ ∧
    (update_median_feeds [witnessFeed30, witnessFeed25, witnessFeed40]
      ).maintenance_collateral_ratio = 1750 ∧
    median_nat [1750, 1750, 1001] = 1750 ∧
    (update_median_feeds
        [⟨⟨30, 100000⟩, ⟨30, 100000⟩, 1001, 1500, 1001⟩,
         ⟨⟨25, 100000⟩, ⟨25, 100000⟩, 1750, 1500, 1750⟩,
         ⟨⟨40, 100000⟩, ⟨40, 100000⟩, 1750, 1500, 1750⟩]).settlement_price =
      ⟨30, 100000⟩ ∧
    (update_median_feeds
        [⟨⟨30, 100000⟩, ⟨30, 100000⟩, 1001, 1500, 1001⟩,
         ⟨⟨25, 100000⟩, ⟨25, 100000⟩, 1750, 1500, 1750⟩,
         ⟨⟨40, 100000⟩, ⟨40, 100000⟩, 1750, 1500, 1750⟩]).maintenance_collateral_ratio =
      1750 ∧
    (update_median_feeds [witnessFeed30]).settlement_price = ⟨30, 100000⟩ ∧
    live_feeds [⟨100, witnessFeed30⟩, ⟨110, witnessFeed25⟩, ⟨120, witnessFeed40⟩] 150 86400 =
      [witnessFeed30, witnessFeed25, witnessFeed40] := by
  refine ⟨by decide, by decide, by decide, by decide, by decide, by decide, by decide⟩

/-! ## C8: concrete CDD vesting scenario -/

/-- Counterexample to claim C8: depositing 10000 with vesting seconds 1000
and withdrawing the admissible 5000 after 500 seconds leaves a balance of
5000 with zero earned coin-seconds; after another 500 seconds only
2,500,000 of the required 5,000,000 coin-seconds have accrued, so the
claimed withdrawal of the remaining 5000 at that point is rejected, not
accepted (the withdraw test likewise pays out the remainder only after a
full additional vesting period). -/
theorem C8_cdd_counterexample :
    vesting_withdraw ⟨10000, 1000, 0, 0⟩ 500 5000 = some ⟨5000, 1000, 0, 500⟩ ∧
    vesting_withdraw ⟨5000, 1000, 0, 500⟩ 1000 5000 = none := by
  refine ⟨by decide, by decide⟩

/-- Claim C8 as amended: for a CDD vesting balance of 10000 with
vesting seconds 1000, after 500 seconds a withdrawal of exactly 5000
succeeds while 5001 is rejected; after another 500 seconds only 2500 of
the remaining 5000 has matured, and the remaining 5000 is withdrawable
only after a further full vesting period of 1000 seconds. -/
theorem C8_cdd_scenario :
    vesting_withdraw ⟨10000, 1000, 0, 0⟩ 500 5001 = none ∧
    vesting_withdraw ⟨10000, 1000, 0, 0⟩ 500 5000 = some ⟨5000, 1000, 0, 500⟩ ∧
    vesting_withdraw ⟨5000, 1000, 0, 500⟩ 1000 2501 = none ∧
    vesting_withdraw ⟨5000, 1000, 0, 500⟩ 1000 2500 = some ⟨2500, 1000, 0, 1000⟩ ∧
    vesting_withdraw ⟨5000, 1000, 0, 500⟩ 1500 5000 = some ⟨0, 1000, 0, 1500⟩ := by
  refine ⟨by decide, by decide, by decide, by decide, by decide⟩

/-! ## C3: maintenance collateralization invariant -/

/-- Every state produced by a successful call_order_update satisfies the
maintenance invariant, because the operation re-checks the resulting
position against the feed. -/
theorem call_order_update_keeps_invariant {s s2 : MarginState} {dd dc : Int}
    (h : call_order_update s dd dc = some s2) : callInvariant s2 := by
  unfold call_order_update at h
  by_cases h0 : s.globallySettled = true
  · rw [if_pos h0] at h; exact Option.noConfusion h
  rw [if_neg h0] at h
  by_cases h1 : resultingColl s dc < 0
  · rw [if_pos h1] at h; exact Option.noConfusion h
  rw [if_neg h1] at h
  by_cases h2 : resultingDebt s dd < 0
  · rw [if_pos h2] at h; exact Option.noConfusion h
  rw [if_neg h2] at h
  by_cases h3 : s.debtBalance + dd < 0
  · rw [if_pos h3] at h; exact Option.noConfusion h
  rw [if_neg h3] at h
  by_cases h4 : s.collBalance - dc < 0
  · rw [if_pos h4] at h; exact Option.noConfusion h
  rw [if_neg h4] at h
  by_cases h5 : resultingDebt s dd = 0
  · rw [if_pos h5] at h
    by_cases h6 : resultingColl s dc = 0
    · rw [if_pos h6] at h
      cases h
      refine ⟨fun o ho => ?_, fun _ => rfl⟩
      exact Option.noConfusion ho
    · rw [if_neg h6] at h; exact Option.noConfusion h
  · rw [if_neg h5] at h
    by_cases h7 : feedAllows s.feed (resultingColl s dc) (resultingDebt s dd)
    · rw [if_pos h7] at h
      cases h
      refine ⟨fun o ho f2 hf2 => ?_, fun hset => absurd hset h0⟩
      have ho2 : some (⟨resultingColl s dc, resultingDebt s dd⟩ : CallOrder) = some o := ho
      cases ho2
      have hf3 : s.feed = some f2 := hf2
      rw [hf3] at h7
      exact h7
    · rw [if_neg h7] at h; exact Option.noConfusion h

/-- Sequential application of call_order_update preserves the maintenance
invariant. -/
theorem apply_call_ops_keeps_invariant :
    ∀ (ops : List (Int × Int)) (s0 s : MarginState),
      callInvariant s0 → apply_call_ops s0 ops = some s → callInvariant s := by
  intro ops
  induction ops with
  | nil =>
    intro s0 s h0 h
    simp only [apply_call_ops] at h
    cases h
    exact h0
  | cons op rest ih =>
    intro s0 s h0 h
    rcases op with ⟨dd, dc⟩
    simp only [apply_call_ops] at h
    rcases hstep : call_order_update s0 dd dc with _ | s1
    · rw [hstep] at h
      exact Option.noConfusion h
    · rw [hstep] at h
      exact ih s1 s (call_order_update_keeps_invariant hstep) h

/-- Claim C3: in every state reachable by call_order_update operations
from a state without a call order, every live call order is strictly above
the maintenance collateralization or there is no valid current feed, and a
globally settled asset carries no call order; moreover the comparison is
strict: any call_order_update whose resulting positive debt would leave
the position at or below the maintenance collateralization under a valid
feed is rejected. -/
theorem C3_maintenance_invariant :
    (∀ (s0 : MarginState), s0.callOrder = none →
      ∀ (ops : List (Int × Int)) (s : MarginState),
        apply_call_ops s0 ops = some s → callInvariant s) ∧
    (∀ (s : MarginState) (dd dc : Int) (f : PriceFeedIcr),
      s.feed = some f → 0 < resultingDebt s dd →
      ¬ aboveMaintenance f (resultingColl s dc) (resultingDebt s dd) →
      call_order_update s dd dc = none) := by
  constructor
  · intro s0 h0 ops s h
    refine apply_call_ops_keeps_invariant ops s0 s ⟨fun o ho => ?_, fun _ => h0⟩ h
    rw [h0] at ho
    exact Option.noConfusion ho
  · intro s dd dc f hf hd hnab
    unfold call_order_update
    by_cases h0 : s.globallySettled = true
    · rw [if_pos h0]
    rw [if_neg h0]
    by_cases h1 : resultingColl s dc < 0
    · rw [if_pos h1]
    rw [if_neg h1, if_neg (by omega : ¬ resultingDebt s dd < 0)]
    by_cases h3 : s.debtBalance + dd < 0
    · rw [if_pos h3]
    rw [if_neg h3]
    by_cases h4 : s.collBalance - dc < 0
    · rw [if_pos h4]
    rw [if_neg h4, if_neg (by omega : ¬ resultingDebt s dd = 0), if_neg ?_]
    rw [hf]
    exact hnab

/-- Witness for C3: the state reached by the scenario borrow satisfies the
invariant, and at the exact boundary a borrow of 1000 debt against 1750
collateral under a unit feed with MCR 1750 (collateralization exactly
equal to the maintenance value) is rejected. -/
theorem C3_maintenance_invariant_witness :
    callInvariant ⟨some ⟨10000, 5000⟩, 5000, 9990000, some usdbitFeed, false⟩ ∧
    call_order_update ⟨none, 0, 1000000, some unitFeed, false⟩ 1000 1750 = none :=
  ⟨C3_maintenance_invariant.1 borrowScenarioStart rfl [(5000, 10000)]
      ⟨some ⟨10000, 5000⟩, 5000, 9990000, some usdbitFeed, false⟩ (by decide),
   C3_maintenance_invariant.2 ⟨none, 0, 1000000, some unitFeed, false⟩ 1000 1750 unitFeed
      rfl (by decide) (by decide)⟩

/-! ## C5: prediction market life cycle -/

/-- Claim C5: for a prediction market asset a call_order_update whose
collateral delta differs from its debt delta is rejected, so every
position keeps collateral equal to debt; force settlement before global
settlement is rejected; global settlement at a price paying more than one
collateral per debt is rejected; settling an already settled asset again
is rejected; and after global settlement force settlement succeeds and
redeems from the settlement fund at the settlement price.  The concrete
chain follows the prediction_market test: borrow 1000 against 2000 is
rejected, borrow 1000 against 1000 opens the position, covering 500
against 1000 is rejected, covering 500 against 500 halves it, settling at
100 PMARK for 105 CORE is rejected, settling at 100 for 95 seizes 475 into
the fund, a second global settle is rejected, and the two force
settlements of 100 and 400 drain fund and supply to zero. -/
theorem C5_prediction_market :
    (pm_call_order_update pmScenarioStart 1000 2000 = none) ∧
    (pm_call_order_update pmScenarioStart 1000 1000 =
      some ⟨some ⟨1000, 1000⟩, 1000, 999000, 1000, false, 1, 1, 0⟩) ∧
    (pm_call_order_update ⟨some ⟨1000, 1000⟩, 1000, 999000, 1000, false, 1, 1, 0⟩
        (-500) (-1000) = none) ∧
    (pm_call_order_update ⟨some ⟨1000, 1000⟩, 1000, 999000, 1000, false, 1, 1, 0⟩
        (-500) (-500) =
      some ⟨some ⟨500, 500⟩, 500, 999500, 500, false, 1, 1, 0⟩) ∧
    (pm_force_settle ⟨some ⟨500, 500⟩, 500, 999500, 500, false, 1, 1, 0⟩ 100 = none) ∧
    (pm_global_settle ⟨some ⟨500, 500⟩, 500, 999500, 500, false, 1, 1, 0⟩ 100 105 = none) ∧
    (pm_global_settle ⟨some ⟨500, 500⟩, 500, 999500, 500, false, 1, 1, 0⟩ 100 95 =
      some ⟨none, 500, 999525, 500, true, 100, 95, 475⟩) ∧
    (pm_global_settle ⟨none, 500, 999525, 500, true, 100, 95, 475⟩ 100 95 = none) ∧
    (pm_force_settle ⟨none, 500, 999525, 500, true, 100, 95, 475⟩ 100 =
      some ⟨none, 400, 999620, 400, true, 100, 95, 380⟩) ∧
    (pm_force_settle ⟨none, 400, 999620, 400, true, 100, 95, 380⟩ 400 =
      some ⟨none, 0, 1000000, 0, true, 100, 95, 0⟩) ∧
    (∀ (s s2 : PmState) (dd dc : Int),
      pm_call_order_update s dd dc = some s2 →
      (∀ o, s.position = some o → o.collateral = o.debt) →
      ∀ o2, s2.position = some o2 → o2.collateral = o2.debt) := by
  refine ⟨by decide, by decide, by decide, by decide, by decide, by decide, by decide,
          by decide, by decide, by decide, ?_⟩
  intro s s2 dd dc h hinv o2 ho2
  unfold pm_call_order_update at h
  by_cases h0 : s.settled = true
  · rw [if_pos h0] at h; exact Option.noConfusion h
  rw [if_neg h0] at h
  by_cases h1 : dd ≠ dc
  · rw [if_pos h1] at h; exact Option.noConfusion h
  rw [if_neg h1] at h
  push_neg at h1
  by_cases h2 : posCollateral s.position + dc < 0
  · rw [if_pos h2] at h; exact Option.noConfusion h
  rw [if_neg h2] at h
  by_cases h3 : posDebt s.position + dd < 0
  · rw [if_pos h3] at h; exact Option.noConfusion h
  rw [if_neg h3] at h
  by_cases h4 : s.pmBalance + dd < 0
  · rw [if_pos h4] at h; exact Option.noConfusion h
  rw [if_neg h4] at h
  by_cases h5 : s.coreBalance - dc < 0
  · rw [if_pos h5] at h; exact Option.noConfusion h
  rw [if_neg h5] at h
  by_cases h6 : posDebt s.position + dd = 0
  · rw [if_pos h6] at h
    by_cases h7 : posCollateral s.position + dc = 0
    · rw [if_pos h7] at h
      cases h
      exact Option.noConfusion ho2
    · rw [if_neg h7] at h; exact Option.noConfusion h
  · rw [if_neg h6] at h
    cases h
    have ho3 : some (⟨posCollateral s.position + dc, posDebt s.position + dd⟩ : CallOrder) =
        some o2 := ho2
    cases ho3
    show posCollateral s.position + dc = posDebt s.position + dd
    have hcd : posCollateral s.position = posDebt s.position := by
      rcases hp : s.position with _ | o
      · rfl
      · exact hinv o hp
    rw [hcd, h1]

/-- Witness for C5 at the concrete opening borrow: the position produced
by borrowing 1000 against 1000 keeps collateral equal to debt. -/
theorem C5_prediction_market_witness :
    (pm_call_order_update pmScenarioStart 1000 1000 =
      some ⟨some ⟨1000, 1000⟩, 1000, 999000, 1000, false, 1, 1, 0⟩) ∧
    ((⟨1000, 1000⟩ : CallOrder).collateral = (⟨1000, 1000⟩ : CallOrder).debt) :=
  ⟨by decide,
   C5_prediction_market.2.2.2.2.2.2.2.2.2.2 pmScenarioStart
     ⟨some ⟨1000, 1000⟩, 1000, 999000, 1000, false, 1, 1, 0⟩ 1000 1000 (by decide)
     (fun o ho => Option.noConfusion ho) ⟨1000, 1000⟩ rfl⟩

/-! ## C7: CDD withdrawal admissibility -/

/-- Claim C7: for every CDD vesting balance, after aging at the current
time a withdrawal of w succeeds iff w is within the balance and
w * vesting_seconds is within the earned coin-seconds; on success the
earned coin-seconds drop by w * vesting_seconds and the balance by w; the
earned coin-seconds never exceed balance * vesting_seconds after aging, so
no amount exceeding the balance is ever withdrawable regardless of how
long the balance has aged. -/
theorem C7_cdd_withdrawal :
    ∀ (v : CddVestingBalance) (t w : Nat),
      ((vesting_withdraw v t w).isSome ↔
        w ≤ v.balance ∧ w * v.vestingSeconds ≤ (vesting_update v t).coinSecondsEarned) ∧
      ((vesting_update v t).coinSecondsEarned ≤ v.balance * v.vestingSeconds) ∧
      (∀ v2, vesting_withdraw v t w = some v2 →
        v2.balance = v.balance - w ∧
        v2.coinSecondsEarned =
          (vesting_update v t).coinSecondsEarned - w * v.vestingSeconds ∧
        w ≤ v.balance) := by
  intro v t w
  refine ⟨?_, ?_, ?_⟩
  · unfold vesting_withdraw
    split
    next h => exact iff_of_true rfl h
    next h => exact iff_of_false (by simp) h
  · exact min_le_right _ _
  · intro v2 h
    unfold vesting_withdraw at h
    split at h
    next hcond =>
      cases h
      exact ⟨rfl, rfl, hcond.1⟩
    next => exact Option.noConfusion h

/-- Witness for C7 at the concrete scenario balance: after 500 seconds the
withdrawal of 5000 out of the 10000 deposit is admissible and leaves
balance 5000. -/
theorem C7_cdd_withdrawal_witness :
    (vesting_withdraw ⟨10000, 1000, 0, 0⟩ 500 5000).isSome ∧
    (⟨5000, 1000, 0, 500⟩ : CddVestingBalance).balance = 10000 - 5000 ∧
    5000 ≤ 10000 :=
  ⟨(C7_cdd_withdrawal ⟨10000, 1000, 0, 0⟩ 500 5000).1.mpr (by decide),
   ((C7_cdd_withdrawal ⟨10000, 1000, 0, 0⟩ 500 5000).2.2 ⟨5000, 1000, 0, 500⟩
     (by decide)).1,
   ((C7_cdd_withdrawal ⟨10000, 1000, 0, 0⟩ 500 5000).2.2 ⟨5000, 1000, 0, 500⟩
     (by decide)).2.2⟩

/-! ## C9: fill-or-kill limit orders -/

/-- Claim C9: a limit_order_create with fill_or_kill set whose matching
walk leaves a remainder fails as a whole, so no partial fill and no escrow
persists; in particular such an order against an empty opposing book is
rejected while the identical order without fill_or_kill rests on the book;
an exactly matching opposing order lets the same fill-or-kill order fill
fully. -/
theorem C9_fill_or_kill :
    (∀ (s : BookState) (a r : Nat),
      (match_walk ⟨a, r⟩ s.opposingBook).1.forSale ≠ 0 →
      limit_order_create s a r true = none) ∧
    limit_order_create ⟨[], [], 500, 0⟩ 500 500 true = none ∧
    limit_order_create ⟨[], [], 500, 0⟩ 500 500 false =
      some ⟨[], [⟨500, 500⟩], 0, 0⟩ ∧
    limit_order_create ⟨[⟨500, 500⟩], [], 500, 0⟩ 500 500 true =
      some ⟨[], [], 0, 500⟩ := by
  refine ⟨?_, by decide, by decide, by decide⟩
  intro s a r h
  unfold limit_order_create
  by_cases h0 : a = 0
  · rw [if_pos h0]
  rw [if_neg h0]
  by_cases h1 : r = 0
  · rw [if_pos h1]
  rw [if_neg h1]
  by_cases h2 : (a : Int) > s.sellBalance
  · rw [if_pos h2]
  rw [if_neg h2, if_pos ⟨rfl, h⟩]

/-- Witness for C9 on the empty opposing book: the walk leaves the whole
order unfilled, so the fill-or-kill order is rejected. -/
theorem C9_fill_or_kill_witness :
    limit_order_create ⟨[], [], 500, 0⟩ 500 500 true = none :=
  C9_fill_or_kill.1 ⟨[], [], 500, 0⟩ 500 500 (by decide)

end BitsharesCore
